import Mathlib

/-!
# Verification of the detection-dashboard web application (`src/app.py`)

Shallow embedding of a small Flask application serving a SQLite table
`detections(id, timestamp, source_ip, destination_ip, classification)`:

* a label map built from a persisted label encoder
  (`LABEL_MAP = dict(enumerate(label_encoder.classes_))`, line 16), with
  lookups `LABEL_MAP.get(int(c), "Unknown")`;
* a Jinja2 filter `datetime_filter` (lines 24-28) formatting epoch seconds;
* `init_db` (lines 32-49) running `CREATE TABLE IF NOT EXISTS detections …`;
* three handlers: `dashboard` (`GET /`, lines 61-92), `api_detections`
  (`GET /api/detections`, lines 94-110) and `api_stats` (`GET /api/stats`,
  lines 112-128), each built from the two read queries
  `SELECT * FROM detections ORDER BY timestamp DESC LIMIT 100` and
  `SELECT classification, COUNT(*) FROM detections GROUP BY classification`.

Machine integers are modelled as `Int`/`Nat`; the SQLite `REAL` timestamp as
a rational number; Python dicts as insertion-ordered association lists.
-/

namespace App

/-- One row of the `detections` table: `id INTEGER PRIMARY KEY AUTOINCREMENT`,
`timestamp REAL NOT NULL`, `source_ip TEXT NOT NULL`,
`destination_ip TEXT NOT NULL`, `classification INTEGER NOT NULL`
(app.py lines 36-44).  The `REAL` timestamp is modelled as a rational. -/
structure Row where
  id : Nat
  timestamp : ℚ
  source_ip : String
  destination_ip : String
  classification : Int
  deriving DecidableEq, Repr

/-- The contents of the `detections` table, in stored (rowid) order. -/
abbrev Store := List Row

/-- `label_encoder.classes_`: the ordered list of class names loaded once at
startup from the joblib artifact (app.py line 15), indexed by class id. -/
abbrev Labels := List String

/-- `LABEL_MAP = dict(enumerate(label_encoder.classes_))` (app.py line 16):
a finite map whose key set is exactly `0 .. classes.length - 1`. -/
def LABEL_MAP (classes : Labels) (i : Int) : Option String :=
  if 0 ≤ i then classes[i.toNat]? else none

/-- `LABEL_MAP.get(int(c), "Unknown")` — label resolution as performed in all
three handlers (app.py lines 76, 84, 105, 123). -/
def resolve (classes : Labels) (i : Int) : String :=
  (LABEL_MAP classes i).getD "Unknown"

/-- The comparator of `ORDER BY timestamp DESC`: row `a` may precede row `b`
iff `a.timestamp ≥ b.timestamp`. -/
def tsDesc (a b : Row) : Bool := decide (b.timestamp ≤ a.timestamp)

/-- `SELECT * FROM detections ORDER BY timestamp DESC LIMIT limit`
(app.py lines 70-72 and 102-104, both with `limit = 100`).  SQLite leaves the
relative order of rows with equal timestamps unspecified; the embedding fixes
one admissible order via a stable sort of the stored order. -/
def recentQuery (db : Store) (limit : Nat) : List Row :=
  (db.mergeSort tsDesc).take limit

/-- The distinct classification ids present in the store, in ascending order —
the group keys produced by `GROUP BY classification` (SQLite emits the groups
in ascending key order when it sorts to build the groups). -/
def classKeys (db : Store) : List Int :=
  ((db.map (·.classification)).dedup).mergeSort (fun a b => decide (a ≤ b))

/-- `SELECT classification, COUNT(*) AS count FROM detections
GROUP BY classification` (app.py lines 81-83 and 120-122): one
`(key, count)` pair per distinct raw classification id. -/
def groupCounts (db : Store) : List (Int × Nat) :=
  (classKeys db).map (fun k => (k, (db.map (·.classification)).count k))

/-- A Python `dict` with string keys and integer values, modelled as an
insertion-ordered association list.  `dictInsert d k v` is `d[k] = v`: an
existing binding of `k` is overwritten in place (keeping its position, as
CPython dicts do), otherwise the binding is appended at the end. -/
def dictInsert : List (String × Nat) → String → Nat → List (String × Nat)
  | [], k, v => [(k, v)]
  | p :: d, k, v => if p.1 = k then (k, v) :: d else p :: dictInsert d k v

/-- Python `d.get(k)`: the value of the first binding of `k`, if any. -/
def dictLookup : List (String × Nat) → String → Option Nat
  | [], _ => none
  | p :: d, k => if p.1 = k then some p.2 else dictLookup d k

/-- The dict comprehension of app.py lines 84 and 123:
`{LABEL_MAP.get(int(row.classification), "Unknown"): row.count for row in stats}`.
Each raw group key is translated through `resolve` only when it becomes a dict
key, so two raw ids with the same resolved label collide: the later group's
count overwrites the earlier one's. -/
def statsResponse (classes : Labels) (db : Store) : List (String × Nat) :=
  (groupCounts db).foldl (fun d kc => dictInsert d (resolve classes kc.1) kc.2) []

/-- A serialized detection record, `dict(row, classification=<label>)`
(app.py lines 75-78 and 105): `classification` is replaced by its resolved
label, every other column is copied unchanged. -/
structure OutRow where
  id : Nat
  timestamp : ℚ
  source_ip : String
  destination_ip : String
  classification : String
  deriving DecidableEq, Repr

/-- `dict(row, classification=LABEL_MAP.get(int(row.classification), "Unknown"))`. -/
def translateRow (classes : Labels) (r : Row) : OutRow :=
  ⟨r.id, r.timestamp, r.source_ip, r.destination_ip, resolve classes r.classification⟩

/-- The detection list served by both the dashboard (lines 75-78) and
`/api/detections` (line 105): the recent query translated row by row. -/
def apiRows (classes : Labels) (db : Store) : List OutRow :=
  (recentQuery db 100).map (translateRow classes)

/-- The body of an HTTP response produced by one of the three handlers. -/
inductive HttpBody where
  | html (detections : List OutRow) (stats : List (String × Nat))
  | jsonRows (rows : List OutRow)
  | jsonStats (stats : List (String × Nat))
  | errText (msg : String)
  | jsonError (msg : String)
  deriving DecidableEq, Repr

/-- An HTTP response: status code and body. -/
structure HttpResponse where
  status : Nat
  body : HttpBody
  deriving DecidableEq, Repr

/-- `GET /` (app.py lines 61-92).  `conn` is the result of
`get_db_connection()`; `none` models a connection failure, answered with
status 500 and a plain-text body (line 67). -/
def dashboard (classes : Labels) (conn : Option Store) : HttpResponse :=
  match conn with
  | none => ⟨500, HttpBody.errText "Database connection error"⟩
  | some db => ⟨200, HttpBody.html (apiRows classes db) (statsResponse classes db)⟩

/-- `GET /api/detections` (app.py lines 94-110); a connection failure is
answered with status 500 and a JSON error object (line 100). -/
def api_detections (classes : Labels) (conn : Option Store) : HttpResponse :=
  match conn with
  | none => ⟨500, HttpBody.jsonError "Database connection error"⟩
  | some db => ⟨200, HttpBody.jsonRows (apiRows classes db)⟩

/-- `GET /api/stats` (app.py lines 112-128); a connection failure is answered
with status 500 and a JSON error object (line 118). -/
def api_stats (classes : Labels) (conn : Option Store) : HttpResponse :=
  match conn with
  | none => ⟨500, HttpBody.jsonError "Database connection error"⟩
  | some db => ⟨200, HttpBody.jsonStats (statsResponse classes db)⟩

/-- The exception classes that can arise inside the `datetime` filter.  The
filter's `except` clause (app.py line 27) catches only `ValueError` and
`TypeError`; `OverflowError` and `OSError` propagate out of it. -/
inductive PyExc where
  | valueError
  | typeError
  | overflowError
  | osError
  deriving DecidableEq, Repr

deriving instance DecidableEq for Except

/-- A CPython float as seen by the filter: a finite value, a signed infinity,
or NaN.  Finite values are kept as exact rationals; binary-double rounding
(which can move a literal across a range boundary) is the one aspect outside
the model. -/
inductive PFloat where
  | finite (q : ℚ)
  | inf
  | neginf
  | nan
  deriving DecidableEq, Repr

/-- A Python value reaching the Jinja2 `datetime` filter: the stored `REAL`
timestamp (a float), a string, or `None`. -/
inductive PyValue where
  | num (x : PFloat)
  | str (s : String)
  | pynone
  deriving DecidableEq, Repr

/-- The value of a string of decimal digits. -/
def natOfDigits (ds : List Char) : Nat :=
  ds.foldl (fun a c => a * 10 + (c.toNat - 48)) 0

/-- Characters a digit group of a Python numeric literal may contain. -/
def isGroupChar (c : Char) : Bool := c.isDigit || c == '_'

/-- The tail of a digit group: digits with single underscores strictly
between digits (`1__0`, `10_` are invalid tails). -/
def groupRest : List Char → Bool
  | [] => true
  | '_' :: c :: r => c.isDigit && groupRest (c :: r)
  | c :: r => c.isDigit && groupRest r

/-- A valid non-empty digit group of a Python numeric literal: it starts with
a digit and its underscores sit strictly between digits (`10_000` is valid;
`_10`, `10_` and `1__0` are not). -/
def validGroup : List Char → Bool
  | [] => false
  | c :: r => c.isDigit && groupRest r

/-- The exponent suffix of a Python float literal: an optional sign followed
by a digit group; scales the mantissa by the matching power of ten. -/
def applyExp (m : ℚ) (cs : List Char) : Option ℚ :=
  let sc : Bool × List Char :=
    match cs with
    | '-' :: r => (true, r)
    | '+' :: r => (false, r)
    | _ => (false, cs)
  let dsRaw := sc.2.takeWhile isGroupChar
  if validGroup dsRaw && (sc.2.dropWhile isGroupChar).isEmpty then
    let e := natOfDigits (dsRaw.filter (fun c => c != '_'))
    some (if sc.1 then m / (10 : ℚ) ^ e else m * (10 : ℚ) ^ e)
  else none

/-- `float(s)` on a string (app.py line 26): optional surrounding whitespace,
an optional sign, then either one of the special names `inf`, `infinity`,
`nan` (case-insensitive), or `digits`, `digits.`, `.digits` or
`digits.digits` — each digit group possibly with underscores between digits
— optionally followed by an `e`/`E` exponent part.  Returns `none` exactly
where Python raises `ValueError`. -/
def parsePyFloat (s : String) : Option PFloat :=
  let cs := ((s.toList.dropWhile Char.isWhitespace).reverse.dropWhile
    Char.isWhitespace).reverse
  let sc : Bool × List Char :=
    match cs with
    | '-' :: r => (true, r)
    | '+' :: r => (false, r)
    | _ => (false, cs)
  let neg := sc.1
  let low := sc.2.map Char.toLower
  if low = ['i', 'n', 'f'] ∨ low = ['i', 'n', 'f', 'i', 'n', 'i', 't', 'y'] then
    some (if neg then PFloat.neginf else PFloat.inf)
  else if low = ['n', 'a', 'n'] then some PFloat.nan
  else
    let signed : ℚ → PFloat := fun q => PFloat.finite (if neg then -q else q)
    let ipRaw := sc.2.takeWhile isGroupChar
    if !ipRaw.isEmpty && !validGroup ipRaw then none
    else
      let ip := ipRaw.filter (fun c => c != '_')
      match sc.2.dropWhile isGroupChar with
      | [] => if ipRaw.isEmpty then none else some (signed (natOfDigits ip : ℚ))
      | '.' :: r =>
        let fpRaw := r.takeWhile isGroupChar
        if !fpRaw.isEmpty && !validGroup fpRaw then none
        else if ipRaw.isEmpty && fpRaw.isEmpty then none
        else
          let fp := fpRaw.filter (fun c => c != '_')
          let m : ℚ :=
            (natOfDigits ip : ℚ) + (natOfDigits fp : ℚ) / (10 : ℚ) ^ fp.length
          match r.dropWhile isGroupChar with
          | [] => some (signed m)
          | 'e' :: r₂ => (applyExp m r₂).map signed
          | 'E' :: r₂ => (applyExp m r₂).map signed
          | _ => none
      | 'e' :: r =>
        if ipRaw.isEmpty then none
        else (applyExp (natOfDigits ip : ℚ) r).map signed
      | 'E' :: r =>
        if ipRaw.isEmpty then none
        else (applyExp (natOfDigits ip : ℚ) r).map signed
      | _ => none

/-- `float(value)` (app.py line 26): numbers pass through, strings are
parsed (`ValueError` on failure), `None` raises `TypeError`. -/
def pyFloat : PyValue → Except PyExc PFloat
  | PyValue.num x => Except.ok x
  | PyValue.str s =>
    match parsePyFloat s with
    | some x => Except.ok x
    | none => Except.error PyExc.valueError
  | PyValue.pynone => Except.error PyExc.typeError

/-- The Gregorian civil date `(year, month, day)` of a day count relative to
1970-01-01, by the standard civil-from-days computation used by C time
libraries. -/
def civilFromDays (z₀ : Int) : Int × Nat × Nat :=
  let z := z₀ + 719468
  let era : Int := (if 0 ≤ z then z else z - 146096) / 146097
  let doe : Nat := (z - era * 146097).toNat
  let yoe : Nat := (doe - doe / 1460 + doe / 36524 - doe / 146096) / 365
  let doy : Nat := doe - (365 * yoe + yoe / 4 - yoe / 100)
  let mp : Nat := (5 * doy + 2) / 153
  let d : Nat := doy - (153 * mp + 2) / 5 + 1
  let m : Nat := if mp < 10 then mp + 3 else mp - 9
  (era * 400 + yoe + (if m ≤ 2 then 1 else 0), m, d)

/-- The decimal digits of `n`, left-padded with zeros to width `w`
(the zero padding of `strftime`). -/
def padNum (w : Nat) (n : Nat) : String :=
  let s := toString n
  String.mk (List.replicate (w - s.length) '0') ++ s

/-- The pure `strftime('%Y-%m-%d %H:%M:%S')` rendering of an epoch second
count already shifted to local time; `strftime` without `%f` displays whole
seconds, i.e. the floor of the timestamp.  It is only reached by the filter
for seconds whose civil year lies in `1 .. 9999` — out-of-range timestamps
raise inside `datetime.fromtimestamp` before any formatting (see
`fromtsFormat`). -/
def formatTimestamp (secs : Int) : String :=
  let days := secs.fdiv 86400
  let sod := (secs - days * 86400).toNat
  let c := civilFromDays days
  padNum 4 c.1.toNat ++ "-" ++ padNum 2 c.2.1 ++ "-" ++ padNum 2 c.2.2 ++ " " ++
    padNum 2 (sod / 3600) ++ ":" ++ padNum 2 (sod % 3600 / 60) ++ ":" ++
    padNum 2 (sod % 60)

/-- Smallest value of the platform `time_t` (64-bit signed), `-2 ^ 63`. -/
def TIME_T_MIN : Int := -9223372036854775808

/-- Largest value of the platform `time_t` (64-bit signed), `2 ^ 63 - 1`. -/
def TIME_T_MAX : Int := 9223372036854775807

/-- Smallest year whose `tm_year = year - 1900` fits the C `int` of
`struct tm`: `-(2 ^ 31) + 1900`. -/
def TM_YEAR_MIN : Int := -2147481748

/-- Largest year whose `tm_year = year - 1900` fits the C `int` of
`struct tm`: `2 ^ 31 - 1 + 1900`. -/
def TM_YEAR_MAX : Int := 2147485547

/-- `datetime.fromtimestamp(x).strftime('%Y-%m-%d %H:%M:%S')` with the
exceptions CPython raises on a 64-bit Unix platform:
NaN → `ValueError`; ±infinity → `OverflowError`; a finite timestamp whose
floor does not fit `time_t` → `OverflowError`; one whose local civil year
does not fit the C `int` `tm_year` of `localtime` → `OSError`; one whose
local civil year falls outside `datetime`'s `1 .. 9999` → `ValueError`;
otherwise the formatted local time.  `tz` is the local-time offset from UTC
in seconds. -/
def fromtsFormat (tz : Int) : PFloat → Except PyExc String
  | PFloat.nan => Except.error PyExc.valueError
  | PFloat.inf => Except.error PyExc.overflowError
  | PFloat.neginf => Except.error PyExc.overflowError
  | PFloat.finite q =>
    if ⌊q⌋ < TIME_T_MIN ∨ TIME_T_MAX < ⌊q⌋ then Except.error PyExc.overflowError
    else if (civilFromDays ((⌊q⌋ + tz).fdiv 86400)).1 < TM_YEAR_MIN ∨
        TM_YEAR_MAX < (civilFromDays ((⌊q⌋ + tz).fdiv 86400)).1 then
      Except.error PyExc.osError
    else if (civilFromDays ((⌊q⌋ + tz).fdiv 86400)).1 < 1 ∨
        9999 < (civilFromDays ((⌊q⌋ + tz).fdiv 86400)).1 then
      Except.error PyExc.valueError
    else Except.ok (formatTimestamp (⌊q⌋ + tz))

/-- The exception classes named in the `except (ValueError, TypeError)`
clause on app.py line 27. -/
def isCaught : PyExc → Bool
  | PyExc.valueError => true
  | PyExc.typeError => true
  | PyExc.overflowError => false
  | PyExc.osError => false

/-- The body of the `try` block on app.py line 26:
`datetime.fromtimestamp(float(value)).strftime('%Y-%m-%d %H:%M:%S')`. -/
def filterBody (tz : Int) (value : PyValue) : Except PyExc String :=
  match pyFloat value with
  | Except.error e => Except.error e
  | Except.ok x => fromtsFormat tz x

/-- `datetime_filter` (app.py lines 24-28): runs the `try` body and converts
a raised `ValueError` or `TypeError` into the string `"Invalid timestamp"`;
any other exception (`OverflowError`, `OSError`) propagates out of the
filter and fails the rendering request. -/
def datetime_filter (tz : Int) (value : PyValue) : Except PyExc String :=
  match filterBody tz value with
  | Except.ok s => Except.ok s
  | Except.error e =>
    if isCaught e then Except.ok "Invalid timestamp" else Except.error e

/-- One column declaration of a `CREATE TABLE` statement. -/
structure ColumnDef where
  name : String
  sqlType : String
  notNull : Bool
  primaryKeyAutoincrement : Bool
  deriving DecidableEq, Repr

/-- The column set of the `detections` table (app.py lines 37-43). -/
def detectionsColumns : List ColumnDef :=
  [⟨"id", "INTEGER", false, true⟩,
   ⟨"timestamp", "REAL", true, false⟩,
   ⟨"source_ip", "TEXT", true, false⟩,
   ⟨"destination_ip", "TEXT", true, false⟩,
   ⟨"classification", "INTEGER", true, false⟩]

/-- The database schema: the declared tables with their columns. -/
structure SchemaState where
  tables : List (String × List ColumnDef)
  deriving DecidableEq, Repr

/-- Whether a table of the given name exists in the schema. -/
def hasTable (s : SchemaState) (n : String) : Bool :=
  s.tables.any (fun t => t.1 == n)

/-- `CREATE TABLE IF NOT EXISTS`: a no-op when a table of that name already
exists (whatever its columns), otherwise the table is appended to the
schema. -/
def createTableIfNotExists (s : SchemaState) (n : String) (cols : List ColumnDef) :
    SchemaState :=
  if hasTable s n then s else ⟨s.tables ++ [(n, cols)]⟩

/-- `init_db` (app.py lines 32-49): executes
`CREATE TABLE IF NOT EXISTS detections (…)` and commits; a `sqlite3.Error`
would be printed and swallowed (lines 46-47), so the routine never raises. -/
def init_db (s : SchemaState) : SchemaState :=
  createTableIfNotExists s "detections" detectionsColumns

/-- The process-wide state a request handler can see: the label mapping loaded
at startup and the database contents. -/
structure ServerState where
  labels : Labels
  db : Store
  deriving DecidableEq, Repr

/-- Executing the recent-detections `SELECT` against the server state: a
read-only statement, it produces its rows and the database it ran against. -/
def execSelectRecent (limit : Nat) (s : ServerState) : List Row × ServerState :=
  (recentQuery s.db limit, s)

/-- Executing the `GROUP BY` count `SELECT`: also read-only. -/
def execSelectStats (s : ServerState) : List (Int × Nat) × ServerState :=
  (groupCounts s.db, s)

/-- `GET /` in state-passing form: the handler threads the server state
through the statements it executes and returns the final state alongside the
response. -/
def dashboardST (s : ServerState) : HttpResponse × ServerState :=
  let r₁ := execSelectRecent 100 s
  let r₂ := execSelectStats r₁.2
  (⟨200, HttpBody.html (r₁.1.map (translateRow r₂.2.labels))
      (r₂.1.foldl (fun d kc => dictInsert d (resolve r₂.2.labels kc.1) kc.2) [])⟩,
    r₂.2)

/-- `GET /api/detections` in state-passing form. -/
def api_detectionsST (s : ServerState) : HttpResponse × ServerState :=
  let r₁ := execSelectRecent 100 s
  (⟨200, HttpBody.jsonRows (r₁.1.map (translateRow r₁.2.labels))⟩, r₁.2)

/-- `GET /api/stats` in state-passing form. -/
def api_statsST (s : ServerState) : HttpResponse × ServerState :=
  let r₁ := execSelectStats s
  (⟨200, HttpBody.jsonStats
      (r₁.1.foldl (fun d kc => dictInsert d (resolve r₁.2.labels kc.1) kc.2) [])⟩,
    r₁.2)

/-- A concrete store whose records carry classification ids `[0, 1, 0, 99]`. -/
def exDB : Store :=
  [⟨1, 10, "10.0.0.1", "10.0.0.2", 0⟩,
   ⟨2, 20, "10.0.0.3", "10.0.0.4", 1⟩,
   ⟨3, 30, "10.0.0.5", "10.0.0.6", 0⟩,
   ⟨4, 40, "10.0.0.7", "10.0.0.8", 99⟩]

/-- A concrete store with two distinct classification ids, `0` and `99`, that
both fall outside an empty label mapping and hence both resolve to
`"Unknown"`. -/
def exCollide : Store :=
  [⟨1, 10, "10.0.0.1", "10.0.0.2", 0⟩,
   ⟨2, 20, "10.0.0.3", "10.0.0.4", 99⟩]

/-- A concrete store whose ids `5` (one record) and `7` (two records) both
resolve to `"Unknown"` under an empty mapping, with distinguishable group
counts. -/
def exCollide2 : Store :=
  [⟨1, 10, "10.0.0.1", "10.0.0.2", 5⟩,
   ⟨2, 20, "10.0.0.3", "10.0.0.4", 7⟩,
   ⟨3, 30, "10.0.0.5", "10.0.0.6", 7⟩]

/-- A concrete one-record store. -/
def exOne : Store := [⟨1, 10, "10.0.0.1", "10.0.0.2", 5⟩]

/-- The serialization of the single record of `exOne` under an empty label
mapping. -/
def exOut : OutRow := ⟨1, 10, "10.0.0.1", "10.0.0.2", "Unknown"⟩

/-! ## Helper lemmas -/

theorem dictInsert_of_not_mem (d : List (String × Nat)) (k : String) (v : Nat)
    (h : ∀ p ∈ d, p.1 ≠ k) : dictInsert d k v = d ++ [(k, v)] := by
  induction d with
  | nil => rfl
  | cons p d ih =>
    have h1 : p.1 ≠ k := h p (List.mem_cons_self p d)
    simp only [dictInsert, h1, if_false, List.cons_append, List.cons.injEq, true_and]
    exact ih (fun q hq => h q (List.mem_cons_of_mem p hq))

theorem dictLookup_dictInsert (d : List (String × Nat)) (k k' : String) (v : Nat) :
    dictLookup (dictInsert d k v) k' = if k = k' then some v else dictLookup d k' := by
  induction d with
  | nil => simp [dictInsert, dictLookup]
  | cons p d ih =>
    by_cases hpk : p.1 = k
    · by_cases hkk : k = k' <;> simp [dictInsert, dictLookup, hpk, hkk]
    · by_cases hpk' : p.1 = k'
      · have hkk : k ≠ k' := fun h => hpk (h ▸ hpk')
        simp [dictInsert, dictLookup, hpk, hpk', hkk, Ne.symm hkk]
      · simp [dictInsert, dictLookup, hpk, hpk', ih]

theorem keys_dictInsert (d : List (String × Nat)) (k : String) (v : Nat) :
    (dictInsert d k v).map Prod.fst =
      if k ∈ d.map Prod.fst then d.map Prod.fst else d.map Prod.fst ++ [k] := by
  induction d with
  | nil => simp [dictInsert]
  | cons p d ih =>
    by_cases hpk : p.1 = k
    · simp [dictInsert, hpk]
    · have hkp : ¬k = p.1 := fun h => hpk h.symm
      simp only [dictInsert, hpk, if_false, List.map_cons, List.mem_cons, hkp,
        false_or, ih]
      split <;> simp

theorem keys_nodup_dictInsert (d : List (String × Nat)) (k : String) (v : Nat)
    (h : (d.map Prod.fst).Nodup) : ((dictInsert d k v).map Prod.fst).Nodup := by
  rw [keys_dictInsert]
  split
  · exact h
  · next hmem => simp [List.nodup_append, h, hmem]

theorem keys_nodup_foldl_dictInsert (f : Int × Nat → String) (gs : List (Int × Nat)) :
    ∀ d : List (String × Nat), (d.map Prod.fst).Nodup →
      ((gs.foldl (fun acc kc => dictInsert acc (f kc) kc.2) d).map Prod.fst).Nodup := by
  induction gs with
  | nil => intro d h; simpa using h
  | cons g gs ih => intro d h; exact ih _ (keys_nodup_dictInsert _ _ _ h)

theorem dictLookup_foldl_dictInsert (f : Int × Nat → String) (gs : List (Int × Nat)) :
    ∀ (d : List (String × Nat)) (L : String),
      dictLookup (gs.foldl (fun acc kc => dictInsert acc (f kc) kc.2) d) L =
        ((gs.reverse.find? (fun g => f g == L)).map Prod.snd).or (dictLookup d L) := by
  induction gs with
  | nil => intro d L; simp
  | cons g gs ih =>
    intro d L
    simp only [List.foldl_cons, ih, List.reverse_cons, List.find?_append]
    cases hfind : gs.reverse.find? (fun g => f g == L) with
    | some g' => simp [hfind]
    | none =>
      simp only [hfind, Option.none_or, List.find?_cons, List.find?_nil]
      by_cases hL : f g = L
      · simp [hL, dictLookup_dictInsert]
      · have : (f g == L) = false := beq_false_of_ne hL
        simp [this, dictLookup_dictInsert, hL]

theorem foldl_dictInsert_fresh (f : Int × Nat → String) (gs : List (Int × Nat)) :
    ∀ d : List (String × Nat), (∀ g ∈ gs, ∀ p ∈ d, p.1 ≠ f g) →
      (gs.map (fun g => f g)).Nodup →
      gs.foldl (fun acc kc => dictInsert acc (f kc) kc.2) d =
        d ++ gs.map (fun g => (f g, g.2)) := by
  induction gs with
  | nil => intro d _ _; simp
  | cons g gs ih =>
    intro d hfresh hnodup
    simp only [List.foldl_cons]
    rw [dictInsert_of_not_mem _ _ _ (hfresh g (List.mem_cons_self g gs))]
    rw [ih (d ++ [(f g, g.2)]) ?_ (List.Nodup.of_cons hnodup)]
    · simp
    · intro g' hg' p hp
      rcases List.mem_append.1 hp with hd | hs
      · exact hfresh g' (List.mem_cons_of_mem g hg') p hd
      · have hp1 : p.1 = f g := by
          rcases List.mem_singleton.1 hs with rfl; rfl
        rw [hp1]
        have hne : f g ∉ gs.map (fun g => f g) := (List.nodup_cons.1 hnodup).1
        exact fun hEq => hne (hEq ▸ List.mem_map_of_mem (fun g => f g) hg')

theorem groupCounts_sum (db : Store) :
    ((groupCounts db).map Prod.snd).sum = db.length := by
  have hperm : List.Perm (classKeys db) ((db.map (·.classification)).dedup) :=
    List.mergeSort_perm _ _
  calc ((groupCounts db).map Prod.snd).sum
      = ((classKeys db).map (fun k => (db.map (·.classification)).count k)).sum := by
        simp only [groupCounts, List.map_map]
        rfl
    _ = (((db.map (·.classification)).dedup).map
          (fun k => (db.map (·.classification)).count k)).sum :=
        (hperm.map _).sum_eq
    _ = (db.map (·.classification)).length :=
        List.sum_map_count_dedup_eq_length _
    _ = db.length := List.length_map _ _

/-! ## Claim theorems -/

/-- Claim C1: for every classification id that is a key of the label mapping,
`resolve` returns the configured label for that id; for every id not present
in the mapping it returns `"Unknown"`; and for any integer input, resolution
yields one of these two outcomes (it never fails). -/
theorem label_resolution (classes : Labels) (i : Int) :
    (∀ l, LABEL_MAP classes i = some l → resolve classes i = l) ∧
    (LABEL_MAP classes i = none → resolve classes i = "Unknown") ∧
    ((∃ l, LABEL_MAP classes i = some l ∧ resolve classes i = l) ∨
      (LABEL_MAP classes i = none ∧ resolve classes i = "Unknown")) := by
  refine ⟨fun l h => by simp [resolve, h], fun h => by simp [resolve, h], ?_⟩
  cases h : LABEL_MAP classes i with
  | none => exact Or.inr ⟨rfl, by simp [resolve, h]⟩
  | some l => exact Or.inl ⟨l, rfl, by simp [resolve, h]⟩

/-- Witness for C1 at the mapping `["BENIGN", "Bot"]`: key `1` resolves to
`"Bot"`, absent key `99` resolves to `"Unknown"`. -/
theorem label_resolution_witness :
    resolve ["BENIGN", "Bot"] 1 = "Bot" ∧ resolve ["BENIGN", "Bot"] 99 = "Unknown" :=
  ⟨(label_resolution ["BENIGN", "Bot"] 1).1 "Bot" (by decide),
   (label_resolution ["BENIGN", "Bot"] 99).2.1 (by decide)⟩

unseal List.merge List.mergeSort in
/-- Counterexample to claim C2 as stated: in the store `exCollide` the two
distinct raw ids `0` and `99` both resolve to `"Unknown"` under an empty
mapping, the later group overwrites the earlier one in the response dict, and
the response values sum to `1`, not to the record count `2`. -/
theorem stats_sum_counterexample :
    ((statsResponse [] exCollide).map Prod.snd).sum ≠ exCollide.length := by
  decide

/-- Claim C2 as amended: the raw per-classification group counts always sum
to the number of records in the store, and the value counts of the
`/api/stats` response object sum to that number provided the distinct raw
classification ids present in the store resolve to pairwise distinct labels
(no collision after translation). -/
theorem stats_sum_amended (classes : Labels) (db : Store)
    (hnc : ((groupCounts db).map (fun g => resolve classes g.1)).Nodup) :
    ((groupCounts db).map Prod.snd).sum = db.length ∧
    ((statsResponse classes db).map Prod.snd).sum = db.length := by
  refine ⟨groupCounts_sum db, ?_⟩
  have h2 : statsResponse classes db =
      (groupCounts db).map (fun g => (resolve classes g.1, g.2)) := by
    simpa using foldl_dictInsert_fresh (fun kc => resolve classes kc.1)
      (groupCounts db) [] (by simp) hnc
  rw [h2, List.map_map]
  have h3 : (Prod.snd ∘ fun g : Int × Nat => (resolve classes g.1, g.2)) =
      (Prod.snd : Int × Nat → Nat) := rfl
  rw [h3]
  exact groupCounts_sum db

unseal List.merge List.mergeSort in
/-- Witness for the amended C2 at the store `exDB` (ids `[0, 1, 0, 99]`) and
mapping `["BENIGN", "Bot"]`, whose resolved labels are pairwise distinct. -/
theorem stats_sum_amended_witness :
    ((statsResponse ["BENIGN", "Bot"] exDB).map Prod.snd).sum = exDB.length :=
  (stats_sum_amended ["BENIGN", "Bot"] exDB (by decide)).2

/-- Claim C3: the recent-detections query returns at most `limit` records and
its records are non-increasing in `timestamp` from first to last; the
dashboard and `/api/detections` both serve this query with the fixed limit
`100`. -/
theorem recent_limit_ordered (db : Store) (limit : Nat) (classes : Labels) :
    (recentQuery db limit).length ≤ limit ∧
    (recentQuery db limit).Pairwise (fun a b => b.timestamp ≤ a.timestamp) ∧
    dashboard classes (some db) =
      ⟨200, HttpBody.html ((recentQuery db 100).map (translateRow classes))
        (statsResponse classes db)⟩ ∧
    api_detections classes (some db) =
      ⟨200, HttpBody.jsonRows ((recentQuery db 100).map (translateRow classes))⟩ := by
  refine ⟨List.length_take_le _ _, ?_, rfl, rfl⟩
  have hsorted : (db.mergeSort tsDesc).Pairwise (fun a b => tsDesc a b) :=
    List.sorted_mergeSort
      (fun a b c hab hbc => by
        simp only [tsDesc, decide_eq_true_eq] at *
        exact le_trans hbc hab)
      (fun a b => by
        simp only [tsDesc, Bool.or_eq_true, decide_eq_true_eq]
        exact le_total _ _)
      db
  exact (List.Pairwise.sublist (List.take_sublist _ _) hsorted).imp
    (fun h => by simpa [tsDesc] using h)

unseal List.merge List.mergeSort in
/-- Claim C4: the stats query groups on the raw classification id and
translates each group key to a label only when building the response dict;
looking up any label in the response yields the count of the last group (in
group-key order) whose key resolves to that label, so groups whose keys
collide after translation are silently merged into one bucket with
last-write-wins semantics.  The response keys are free of duplicates, and on
the concrete store `exCollide2` (ids `5` once and `7` twice, empty mapping)
the single `"Unknown"` bucket carries the later group's count `2`. -/
theorem stats_last_write_wins (classes : Labels) (db : Store) (L : String) :
    dictLookup (statsResponse classes db) L =
      ((groupCounts db).reverse.find? (fun g => resolve classes g.1 == L)).map
        Prod.snd ∧
    ((statsResponse classes db).map Prod.fst).Nodup ∧
    statsResponse [] exCollide2 = [("Unknown", 2)] := by
  refine ⟨?_, ?_, by decide⟩
  · have h := dictLookup_foldl_dictInsert (fun kc => resolve classes kc.1)
      (groupCounts db) [] L
    simpa [dictLookup, Option.or_none] using h
  · exact keys_nodup_foldl_dictInsert _ _ [] (by simp)

unseal List.merge List.mergeSort in
/-- Claim C5: on a store with classification ids `[0, 1, 0, 99]` and the
mapping `0 ↦ "BENIGN", 1 ↦ "Bot"`, the `/api/stats` endpoint answers 200 with
the object `BENIGN ↦ 2, Bot ↦ 1, Unknown ↦ 1`. -/
theorem api_stats_example :
    api_stats ["BENIGN", "Bot"] (some exDB) =
      ⟨200, HttpBody.jsonStats [("BENIGN", 2), ("Bot", 1), ("Unknown", 1)]⟩ := by
  decide

unseal Rat.mul Rat.add Rat.inv in
/-- Counterexample to claim C6 as stated: the filter does not return a
formatted timestamp — nor `"Invalid timestamp"` — for every parseable value.
The string `"1e30"` is parsed by `float` to the finite value `10 ^ 30`, yet
the filter raises an uncaught `OverflowError` (the floor exceeds `time_t`);
likewise for the parseable strings `"inf"` (`OverflowError`) and for the
finite timestamp `10 ^ 18`, whose civil year overflows `tm_year`
(`OSError`).  None of these is in the caught `(ValueError, TypeError)`
tuple, so the filter raises instead of returning. -/
theorem datetime_filter_counterexample :
    pyFloat (PyValue.str "1e30") = Except.ok (PFloat.finite ((10 : ℚ) ^ 30)) ∧
    datetime_filter 0 (PyValue.str "1e30") = Except.error PyExc.overflowError ∧
    pyFloat (PyValue.str "inf") = Except.ok PFloat.inf ∧
    datetime_filter 0 (PyValue.str "inf") = Except.error PyExc.overflowError ∧
    datetime_filter 0 (PyValue.num (PFloat.finite ((10 : ℚ) ^ 18))) =
      Except.error PyExc.osError := by
  decide

/-- Claim C6 as amended: the filter is deterministic but not total.  A value
`float` rejects (`ValueError`) or refuses (`TypeError` for `None`) — both
caught — displays as `"Invalid timestamp"`; so does every parseable value on
which `fromtimestamp` raises a caught `ValueError` (NaN, or a civil year
outside `1 .. 9999` within platform range).  A parseable finite value whose
floored epoch second fits `time_t` and whose local civil year lies in
`1 .. 9999` is displayed formatted `YYYY-MM-DD HH:MM:SS` local time.  But an
exception outside the caught tuple — `OverflowError` for infinities or
beyond `time_t`, `OSError` beyond `tm_year` — propagates out of the filter.
Concretely, `"not-a-number"` displays as `"Invalid timestamp"` and epoch
second `1000000000` as `"2001-09-09 01:46:40"` (UTC). -/
theorem datetime_filter_amended (tz : Int) (v : PyValue) :
    (∀ e, pyFloat v = Except.error e →
      isCaught e = true ∧ datetime_filter tz v = Except.ok "Invalid timestamp") ∧
    (∀ x s, pyFloat v = Except.ok x → fromtsFormat tz x = Except.ok s →
      datetime_filter tz v = Except.ok s) ∧
    (∀ x e, pyFloat v = Except.ok x → fromtsFormat tz x = Except.error e →
      isCaught e = true → datetime_filter tz v = Except.ok "Invalid timestamp") ∧
    (∀ x e, pyFloat v = Except.ok x → fromtsFormat tz x = Except.error e →
      isCaught e = false → datetime_filter tz v = Except.error e) ∧
    (∀ q, pyFloat v = Except.ok (PFloat.finite q) →
      TIME_T_MIN ≤ ⌊q⌋ → ⌊q⌋ ≤ TIME_T_MAX →
      1 ≤ (civilFromDays ((⌊q⌋ + tz).fdiv 86400)).1 →
      (civilFromDays ((⌊q⌋ + tz).fdiv 86400)).1 ≤ 9999 →
      datetime_filter tz v = Except.ok (formatTimestamp (⌊q⌋ + tz))) ∧
    datetime_filter tz (PyValue.str "not-a-number") =
      Except.ok "Invalid timestamp" ∧
    datetime_filter 0 (PyValue.num (PFloat.finite 1000000000)) =
      Except.ok "2001-09-09 01:46:40" := by
  refine ⟨?_, ?_, ?_, ?_, ?_, ?_, by decide⟩
  · intro e he
    have hce : e = PyExc.valueError ∨ e = PyExc.typeError := by
      cases v with
      | num x => simp [pyFloat] at he
      | str s =>
        cases hp : parsePyFloat s with
        | some x => simp [pyFloat, hp] at he
        | none => simp [pyFloat, hp] at he; exact Or.inl he.symm
      | pynone => simp [pyFloat] at he; exact Or.inr he.symm
    rcases hce with rfl | rfl <;>
      exact ⟨rfl, by simp [datetime_filter, filterBody, he, isCaught]⟩
  · intro x s hx hs
    simp [datetime_filter, filterBody, hx, hs]
  · intro x e hx he hc
    simp [datetime_filter, filterBody, hx, he, hc]
  · intro x e hx he hc
    simp [datetime_filter, filterBody, hx, he, hc]
  · intro q hq h1 h2 h3 h4
    have hfmt : fromtsFormat tz (PFloat.finite q) =
        Except.ok (formatTimestamp (⌊q⌋ + tz)) := by
      have hy : ¬((civilFromDays ((⌊q⌋ + tz).fdiv 86400)).1 < TM_YEAR_MIN ∨
          TM_YEAR_MAX < (civilFromDays ((⌊q⌋ + tz).fdiv 86400)).1) := by
        simp only [TM_YEAR_MIN, TM_YEAR_MAX]
        omega
      have hy2 : ¬((civilFromDays ((⌊q⌋ + tz).fdiv 86400)).1 < 1 ∨
          9999 < (civilFromDays ((⌊q⌋ + tz).fdiv 86400)).1) := by omega
      simp only [fromtsFormat]
      rw [if_neg (not_or.mpr ⟨not_lt.mpr h1, not_lt.mpr h2⟩), if_neg hy, if_neg hy2]
    simp [datetime_filter, filterBody, hq, hfmt]
  · have hp : pyFloat (PyValue.str "not-a-number") =
        Except.error PyExc.valueError := by decide
    simp [datetime_filter, filterBody, hp, isCaught]

/-- Witness for the amended C6: a caught `ValueError` from `float` (the
string `"not-a-number"`), a caught `ValueError` from `fromtimestamp` (NaN),
and a formatted in-range timestamp. -/
theorem datetime_filter_amended_witness :
    datetime_filter 0 (PyValue.str "not-a-number") =
      Except.ok "Invalid timestamp" ∧
    datetime_filter 0 (PyValue.num PFloat.nan) = Except.ok "Invalid timestamp" ∧
    datetime_filter 0 (PyValue.num (PFloat.finite 1000000000)) =
      Except.ok (formatTimestamp (⌊(1000000000 : ℚ)⌋ + 0)) :=
  ⟨((datetime_filter_amended 0 (PyValue.str "not-a-number")).1 PyExc.valueError
      (by decide)).2,
   (datetime_filter_amended 0 (PyValue.num PFloat.nan)).2.2.1 PFloat.nan
      PyExc.valueError rfl rfl rfl,
   (datetime_filter_amended 0 (PyValue.num (PFloat.finite 1000000000))).2.2.2.2.1
      1000000000 rfl (by decide) (by decide) (by decide) (by decide)⟩

/-- Claim C7: `init_db` is idempotent — a second call changes nothing beyond
the first, and on a schema that already has the `detections` table it has no
effect at all (and, being total, it never raises). -/
theorem init_db_idempotent (s : SchemaState) :
    init_db (init_db s) = init_db s ∧
    (hasTable s "detections" = true → init_db s = s) := by
  constructor
  · by_cases h : hasTable s "detections" = true
    · simp [init_db, createTableIfNotExists, h]
    · have h1 : init_db s = ⟨s.tables ++ [("detections", detectionsColumns)]⟩ := by
        simp [init_db, createTableIfNotExists, h]
      have h2 : hasTable ⟨s.tables ++ [("detections", detectionsColumns)]⟩
          "detections" = true := by
        simp [hasTable]
      rw [h1]
      simp [init_db, createTableIfNotExists, h2]
  · intro h
    simp [init_db, createTableIfNotExists, h]

/-- Witness for C7: on a schema already holding the `detections` table,
`init_db` is the identity. -/
theorem init_db_idempotent_witness :
    init_db ⟨[("detections", detectionsColumns)]⟩ =
      ⟨[("detections", detectionsColumns)]⟩ :=
  (init_db_idempotent _).2 (by decide)

unseal List.merge List.mergeSort in
/-- Claim C8: on an empty store (with a working connection) the dashboard
answers HTTP 200 with an empty detection list and empty stats, not an
error. -/
theorem dashboard_empty_ok (classes : Labels) :
    dashboard classes (some []) = ⟨200, HttpBody.html [] []⟩ := rfl

/-- Claim C9: every record served by `/api/detections` (and the dashboard's
list, which shares `apiRows`) comes from a stored row from which only the
`classification` field was changed — replaced by its resolved label — while
`id`, `timestamp`, `source_ip` and `destination_ip` pass through unchanged. -/
theorem api_detections_frame (classes : Labels) (db : Store) (o : OutRow)
    (ho : o ∈ apiRows classes db) :
    ∃ r, r ∈ db ∧ o.id = r.id ∧ o.timestamp = r.timestamp ∧
      o.source_ip = r.source_ip ∧ o.destination_ip = r.destination_ip ∧
      o.classification = resolve classes r.classification := by
  rcases List.mem_map.1 ho with ⟨r, hr, rfl⟩
  exact ⟨r, List.mem_mergeSort.1 (List.mem_of_mem_take hr), rfl, rfl, rfl, rfl, rfl⟩

unseal List.merge List.mergeSort in
/-- Witness for C9 on the one-record store `exOne` and its serialized form
`exOut`. -/
theorem api_detections_frame_witness :
    ∃ r, r ∈ exOne ∧ exOut.id = r.id ∧ exOut.timestamp = r.timestamp ∧
      exOut.source_ip = r.source_ip ∧ exOut.destination_ip = r.destination_ip ∧
      exOut.classification = resolve [] r.classification :=
  api_detections_frame [] exOne exOut (by decide)

/-- Claim C10: each endpoint, in state-passing form, leaves the server state
(label mapping and store) unchanged, and a second invocation against the
state left by the first produces the identical response — each endpoint is a
deterministic, read-only function of the store contents and the mapping.
The state-passing handlers agree with the functional ones. -/
theorem handlers_deterministic_readonly (s : ServerState) :
    (dashboardST s).2 = s ∧ (api_detectionsST s).2 = s ∧ (api_statsST s).2 = s ∧
    (dashboardST ((dashboardST s).2)).1 = (dashboardST s).1 ∧
    (api_detectionsST ((api_detectionsST s).2)).1 = (api_detectionsST s).1 ∧
    (api_statsST ((api_statsST s).2)).1 = (api_statsST s).1 ∧
    (dashboardST s).1 = dashboard s.labels (some s.db) ∧
    (api_detectionsST s).1 = api_detections s.labels (some s.db) ∧
    (api_statsST s).1 = api_stats s.labels (some s.db) :=
  ⟨rfl, rfl, rfl, rfl, rfl, rfl, rfl, rfl, rfl⟩

end App
